import Mathlib

/-!
Verification of the hackerchat `rag-api` scripts.

The development shallowly embeds the parts of the repository that the
claims concern:

* the Socket.IO `message` handler of `src/rag-api/chat_api.py`
  (lines 131-242), as a pure function from an inbound event and an
  environment of external-call results to the list of observable effects
  it performs;
* `create_robot` of `src/rag-api/create_robot.py` (lines 51-87), over a
  list model of the `users` table;
* `insert_message` of `src/rag-api/seed_messages.py` (lines 175-221),
  over a list model of the `Message` table.

External collaborators (the Pinecone retriever, the LLM, the socket
transport, uuid4 and the clock) are parameters of the environment: each
call site receives the result the environment assigns to it, either a
success value or a raised exception (`Except.error`).
-/

namespace RagChat

/-- The bot identity hard-coded in `chat_api.py` line 47. -/
def bot_id : String := "bot_mr_robot"

/-- A retrieved document as used by the handler: `page_content` plus the
`author` and `channel` metadata read via `doc.metadata.get` (absent keys
give the default `"unknown"`, hence `Option`). -/
structure Passage where
  author : Option String
  channel : Option String
  page_content : String
deriving DecidableEq

/-- The fields of the inbound message dict that the handler reads.
`content` defaults to `""` and the author id to `""` when absent, exactly
as `message.get('content', '')` and `author.get('id', '')` do, so both
are plain strings here.  `channelId` may be missing (`message.get`
returns `None`).  `id` is the inbound message's own identifier; the
handler never reads it, but claim C7 compares the reply id against it. -/
structure InboundMsg where
  id : String
  channelId : Option String
  content : String
  authorId : String
deriving DecidableEq

/-- The payload delivered to the handler after `data.get('message', data)`:
either not a dict (rejected at line 141) or a message record. -/
inductive EventData where
  | notDict
  | msg (m : InboundMsg)
deriving DecidableEq

/-- The inner `message` dict of an outbound message event
(`chat_api.py` lines 204-215). -/
structure OutboundMessage where
  id : String
  content : String
  channelId : Option String
  createdAt : String
  authorId : String
  authorName : String
deriving DecidableEq

/-- An outbound `message_event` as built at `chat_api.py` lines 200-216
and passed to `sio.emit`. -/
structure MessageEvent where
  channelId : Option String
  messageId : String
  message : OutboundMessage
deriving DecidableEq

/-- The environment of one handler invocation: the state of the global
`vectorstore` and the behaviour of every external call the handler can
make.  `retrieve` models `retriever.invoke`, `generate` models
`llm.invoke` on the prompt assembled from the query and the formatted
context, `sendResult` models `sio.emit`, `freshId` is the value of
`uuid4()` and `now` the value of `datetime.utcnow().isoformat()`.
An `Except.error` models a raised exception. -/
structure Env where
  vectorstoreReady : Bool
  retrieve : String → Except String (List Passage)
  generate : String → String → Except String String
  sendResult : Except String Unit
  freshId : String
  now : String

/-- The observable effects of one handler invocation, in order. -/
inductive Effect where
  | retrieveCall (query : String)
  | generateCall (query : String) (context : String)
  | sendCall (ev : MessageEvent)
  | logInfo (s : String)
  | logError (s : String)
deriving DecidableEq

/-- `context_text` as assembled at `chat_api.py` lines 179-182:
one line per document, joined by newlines. -/
def formatContext (docs : List Passage) : String :=
  String.intercalate "\n" (docs.map fun doc =>
    "From " ++ doc.author.getD "unknown" ++ " in " ++
      doc.channel.getD "unknown" ++ ": " ++ doc.page_content)

/-- The outbound message event built at lines 196-216: a fresh id
`"msg_" ++ uuid4()` used both as `messageId` and as the inner message id,
the generated text as content, the triggering channel id, the current
time, and the bot as author. -/
def mkReplyEvent (env : Env) (m : InboundMsg) (txt : String) : MessageEvent :=
  { channelId := m.channelId
    messageId := "msg_" ++ env.freshId
    message :=
      { id := "msg_" ++ env.freshId
        content := txt
        channelId := m.channelId
        createdAt := env.now
        authorId := bot_id
        authorName := "Mr. Robot" } }

/-- The accepted path of the handler (lines 156-228): the inner
`try` block calling retrieval, generation and `sio.emit`, whose
exceptions all land in the same `except` clause at line 222, which logs
and returns. -/
def acceptedPath (env : Env) (m : InboundMsg) : List Effect :=
  Effect.retrieveCall m.content ::
    match env.retrieve m.content with
    | Except.error e =>
        [Effect.logError ("Error generating/sending response: " ++ e)]
    | Except.ok docs =>
        Effect.generateCall m.content (formatContext docs) ::
          match env.generate m.content (formatContext docs) with
          | Except.error e =>
              [Effect.logError ("Error generating/sending response: " ++ e)]
          | Except.ok txt =>
              Effect.sendCall (mkReplyEvent env m txt) ::
                match env.sendResult with
                | Except.ok _ => [Effect.logInfo "Response sent successfully"]
                | Except.error e =>
                    [Effect.logError ("Error generating/sending response: " ++ e)]

/-- The `else` branch of the acceptance test (lines 229-235), which only
logs which condition failed, in the order the code checks them. -/
def rejectLog (env : Env) (m : InboundMsg) : List Effect :=
  if m.authorId = bot_id then [Effect.logInfo "Ignoring own message"]
  else if m.authorId = "" then [Effect.logInfo "Message missing author ID"]
  else if env.vectorstoreReady = false then
    [Effect.logInfo "Vectorstore not initialized"]
  else []

/-- The `message` handler of `chat_api.py` lines 131-242.  The guard at
line 153, `if author_id and author_id != bot_id and vectorstore:`, reads:
the author id is truthy (non-empty), differs from the bot identity, and
the global vectorstore is initialized.  The outer `try` catches every
exception, so the handler always returns normally (totality of this
function). -/
def handleMessage (env : Env) (d : EventData) : List Effect :=
  match d with
  | EventData.notDict => [Effect.logError "Invalid message format"]
  | EventData.msg m =>
      if m.authorId ≠ "" ∧ m.authorId ≠ bot_id ∧ env.vectorstoreReady = true
      then acceptedPath env m
      else rejectLog env m

/-- The outbound replies of a trace: the `sio.emit('message', _)` calls. -/
def sentEvents (tr : List Effect) : List MessageEvent :=
  tr.filterMap fun eff =>
    match eff with
    | Effect.sendCall ev => some ev
    | _ => none

/-- Number of outbound replies the handler emits for one event. -/
def replyCount (env : Env) (d : EventData) : Nat :=
  (sentEvents (handleMessage env d)).length

/-- The acceptance test of line 153 as a boolean: an event is accepted
exactly when it is a dict with a truthy, non-bot author id while the
vectorstore is initialized. -/
def accepted (env : Env) (d : EventData) : Bool :=
  match d with
  | EventData.notDict => false
  | EventData.msg m =>
      if m.authorId ≠ "" ∧ m.authorId ≠ bot_id ∧ env.vectorstoreReady = true
      then true else false

/-- The event-dispatch loop: the Socket.IO client delivers events to the
handler one after another; each event is handled to completion (the
handler catches all exceptions), then the next is handled.  Each event is
paired with the environment describing its external-call results. -/
def runWorker : List (Env × EventData) → List Effect
  | [] => []
  | (env, d) :: rest => handleMessage env d ++ runWorker rest

def isRetrieveCall : Effect → Bool
  | Effect.retrieveCall _ => true
  | _ => false

def isGenerateCall : Effect → Bool
  | Effect.generateCall _ _ => true
  | _ => false

def isSendCall : Effect → Bool
  | Effect.sendCall _ => true
  | _ => false

/-- One event together with its arrival time (in abstract time units).
The handler is synchronous and contains no sleep or scheduling, so
`sio.emit` for an event happens at that event's own processing time. -/
structure TimedInput where
  arrivalAt : Nat
  env : Env
  data : EventData

/-- Process a timed sequence of events; each emitted reply is tagged with
the processing time of its triggering event, which is when the
synchronous handler performs the emit. -/
def runTimed : List TimedInput → List (Nat × MessageEvent)
  | [] => []
  | i :: rest =>
      (sentEvents (handleMessage i.env i.data)).map (fun ev => (i.arrivalAt, ev))
        ++ runTimed rest

/-- The times of the replies emitted into conversation `c`. -/
def emitTimes (inputs : List TimedInput) (c : String) : List Nat :=
  (runTimed inputs).filterMap fun p =>
    if p.2.channelId = some c then some p.1 else none

/-- Every two successive entries of the list are at least `d` apart. -/
def gapsAtLeast (d : Nat) : List Nat → Bool
  | [] => true
  | [_] => true
  | a :: b :: rest => (decide (a + d ≤ b)) && gapsAtLeast d (b :: rest)

/-- Modelled from the spec: the RateLimiter component and its
`MIN_INTERVAL` constant (default 1 time unit) appear only in the spec;
no such constant or component exists anywhere in `src/rag-api`. -/
def MIN_INTERVAL : Nat := 1

/-- The text consists of whitespace only, i.e. trimming surrounding
whitespace leaves the empty string. -/
def whitespaceOnly (s : String) : Bool := s.data.all Char.isWhitespace

/-! ### `create_robot.py` -/

/-- A row of the `users` table with the columns `create_robot` touches. -/
structure UserRow where
  id : String
  name : String
  status : String
  createdAt : Nat
  updatedAt : Nat
deriving DecidableEq

/-- Python `str.lower()` on the bot name: charwise lowercasing. -/
def pyLower (s : String) : String := String.mk (s.data.map Char.toLower)

/-- Python `str.replace(' ', '_')`: since the pattern is a single
character, the replacement is the charwise map sending each space to an
underscore. -/
def replaceSpaces (s : String) : String :=
  String.mk (s.data.map fun c => if c = ' ' then '_' else c)

/-- The bot id derivation of `create_robot.py` line 56:
`f"bot_{bot_name.lower().replace(' ', '_')}"`. -/
def botIdOf (bot_name : String) : String :=
  "bot_" ++ replaceSpaces (pyLower bot_name)

/-- `create_robot` of `create_robot.py` lines 51-87 on a list model of the
`users` table: derive the id from the name, return the table unchanged if
a row with that id exists (lines 60-63), otherwise insert a new row with
status `"online"` and the current time (lines 66-79). -/
def create_robot (db : List UserRow) (bot_name : String) (now : Nat) : List UserRow :=
  let bid := botIdOf bot_name
  if db.any (fun r => r.id == bid) then db
  else db ++ [{ id := bid, name := bot_name, status := "online",
                createdAt := now, updatedAt := now }]

/-! ### `seed_messages.py` -/

/-- One generated seed message: the dict fields `insert_message` reads. -/
structure SeedMessage where
  id : String
  character : String
  content : String
  date : String
  replyToId : Option String
  channelName : String
deriving DecidableEq

/-- A row of the `Message` table with the columns `insert_message` sets. -/
structure MessageRow where
  id : String
  content : String
  channelId : String
  authorId : String
  createdAt : String
  updatedAt : String
  replyToId : Option String
deriving DecidableEq

/-- The reply-link adjustment of `insert_message` lines 203-207:
`if reply_to_id:` is Python truthiness, false both for an absent value
and for the empty string; only a truthy value is checked for existence
and nulled when it matches no row, so an empty-string `replyToId` skips
the check and is kept verbatim. -/
def resolveReplyTo (db : List MessageRow) (r : Option String) : Option String :=
  match r with
  | none => none
  | some rid =>
      if rid == "" then some ""
      else if db.any (fun p => p.id == rid) then some rid
      else none

/-- `insert_message` of `seed_messages.py` lines 175-221 on a list model of
the `Message` table.  `user_id_map.get` and `channel_id_map.get` become
association-list lookups; `if not author_id:` and `if not channel_id:`
are Python truthiness, so an absent or empty mapping raises `ValueError`
(`Except.error`).  On success the new row is appended, with `createdAt`
and `updatedAt` both the message date and `replyToId` as resolved by
`resolveReplyTo`. -/
def insert_message (db : List MessageRow) (md : SeedMessage)
    (user_id_map : List (String × String))
    (channel_id_map : List (String × String)) :
    Except String (List MessageRow) :=
  match user_id_map.lookup md.character with
  | none => Except.error ("No user_id found for character " ++ md.character)
  | some author_id =>
      if author_id == "" then
        Except.error ("No user_id found for character " ++ md.character)
      else
        match channel_id_map.lookup md.channelName with
        | none => Except.error ("No channel_id found for channel " ++ md.channelName)
        | some channel_id =>
            if channel_id == "" then
              Except.error ("No channel_id found for channel " ++ md.channelName)
            else
              Except.ok (db ++
                [{ id := md.id, content := md.content, channelId := channel_id,
                   authorId := author_id, createdAt := md.date,
                   updatedAt := md.date,
                   replyToId := resolveReplyTo db md.replyToId }])

/-- Reply-link referential integrity of a `Message` table: every stored
`replyToId` is either null or the id of some row of the table. -/
def replyLinksValid (db : List MessageRow) : Bool :=
  db.all fun r =>
    match r.replyToId with
    | none => true
    | some rid => db.any fun p => p.id == rid

/-! ### Concrete inputs used by witnesses and counterexamples -/

/-- An environment in which every external call succeeds: retrieval
returns one passage, the LLM returns `"hi there"`, the emit succeeds. -/
def okEnv : Env :=
  { vectorstoreReady := true
    retrieve := fun _ => Except.ok [⟨some "joe66", some "general", "my sink"⟩]
    generate := fun _ _ => Except.ok "hi there"
    sendResult := Except.ok ()
    freshId := "11111111-1111-1111-1111-111111111111"
    now := "2025-01-01T00:00:00" }

/-- `okEnv` with the vectorstore still uninitialized (`None`). -/
def noStoreEnv : Env := { okEnv with vectorstoreReady := false }

/-- `okEnv` whose retrieval call raises. -/
def retrieveFailEnv : Env :=
  { okEnv with retrieve := fun _ => Except.error "pinecone down" }

/-- `okEnv` whose `sio.emit` raises. -/
def sendFailEnv : Env :=
  { okEnv with sendResult := Except.error "socket closed" }

/-- An ordinary user message in channel `c1`. -/
def mHello : InboundMsg :=
  { id := "msg_in_1", channelId := some "c1", content := "hello", authorId := "u1" }

/-- A second user message in channel `c1`. -/
def mHello2 : InboundMsg :=
  { id := "msg_in_2", channelId := some "c1", content := "hello again", authorId := "u1" }

/-- A message authored by the bot itself. -/
def mFromBot : InboundMsg :=
  { id := "msg_in_3", channelId := some "c1", content := "hi", authorId := "bot_mr_robot" }

/-- A message whose content is whitespace only. -/
def mBlank : InboundMsg :=
  { id := "msg_in_4", channelId := some "c1", content := "   ", authorId := "u1" }

/-- Two accepted events for channel `c1` arriving at the same instant:
a burst faster than any positive interval. -/
def burstInput : List TimedInput :=
  [⟨0, okEnv, EventData.msg mHello⟩, ⟨0, okEnv, EventData.msg mHello2⟩]

/-- A users table already containing the row for the bot "mr robot". -/
def db0 : List UserRow :=
  [{ id := "bot_mr_robot", name := "mr robot", status := "online",
     createdAt := 0, updatedAt := 0 }]

/-- A seed message whose `replyToId` is the empty string. -/
def mdEmptyReply : SeedMessage :=
  { id := "m1", character := "joe66", content := "hello",
    date := "2024-11-02T10:00:00", replyToId := some "",
    channelName := "general" }

/-- A user map for the seed. -/
def umap : List (String × String) := [("joe66", "user_joe66123456789")]

/-- A channel map for the seed. -/
def cmap : List (String × String) := [("general", "chan_general")]

/-- The row `insert_message` stores for `mdEmptyReply` on an empty table. -/
def buggyRow : MessageRow :=
  { id := "m1", content := "hello", channelId := "chan_general",
    authorId := "user_joe66123456789", createdAt := "2024-11-02T10:00:00",
    updatedAt := "2024-11-02T10:00:00", replyToId := some "" }

/-! ### Helper lemmas -/

lemma handleMessage_reject (env : Env) (m : InboundMsg)
    (h : ¬ (m.authorId ≠ "" ∧ m.authorId ≠ bot_id ∧ env.vectorstoreReady = true)) :
    handleMessage env (EventData.msg m) = rejectLog env m := by
  simp [handleMessage, h]

lemma sentEvents_rejectLog (env : Env) (m : InboundMsg) :
    sentEvents (rejectLog env m) = [] := by
  unfold rejectLog
  split
  · rfl
  · split
    · rfl
    · split <;> rfl

lemma sentEvents_acceptedPath (env : Env) (m : InboundMsg) :
    sentEvents (acceptedPath env m) =
      match env.retrieve m.content with
      | Except.error _ => []
      | Except.ok docs =>
          match env.generate m.content (formatContext docs) with
          | Except.error _ => []
          | Except.ok txt => [mkReplyEvent env m txt] := by
  unfold acceptedPath
  cases h : env.retrieve m.content with
  | error e => simp [h, sentEvents]
  | ok docs =>
    cases hg : env.generate m.content (formatContext docs) with
    | error e => simp [h, hg, sentEvents]
    | ok txt =>
      cases hs : env.sendResult <;> simp [h, hg, hs, sentEvents]

lemma sentEvents_accept_success (env : Env) (m : InboundMsg)
    (docs : List Passage) (txt : String)
    (h1 : m.authorId ≠ "") (h2 : m.authorId ≠ bot_id)
    (h3 : env.vectorstoreReady = true)
    (h4 : env.retrieve m.content = Except.ok docs)
    (h5 : env.generate m.content (formatContext docs) = Except.ok txt) :
    sentEvents (handleMessage env (EventData.msg m)) = [mkReplyEvent env m txt] := by
  simp only [handleMessage]
  rw [if_pos ⟨h1, h2, h3⟩, sentEvents_acceptedPath]
  simp only [h4, h5]

lemma handleMessage_accept (env : Env) (m : InboundMsg)
    (h : m.authorId ≠ "" ∧ m.authorId ≠ bot_id ∧ env.vectorstoreReady = true) :
    handleMessage env (EventData.msg m) = acceptedPath env m := by
  simp [handleMessage, h]

/-! ### Claims -/

/-- C2: for every inbound message event whose author id equals the bot
identity `bot_id`, the handler emits zero outbound replies. -/
theorem c2_bot_author_yields_no_reply (env : Env) (m : InboundMsg)
    (h : m.authorId = bot_id) :
    replyCount env (EventData.msg m) = 0 := by
  unfold replyCount
  rw [handleMessage_reject env m (fun hc => hc.2.1 h), sentEvents_rejectLog]
  rfl

/-- Witness for C2: the concrete bot-authored message produces no reply. -/
theorem c2_bot_author_yields_no_reply_witness :
    replyCount okEnv (EventData.msg mFromBot) = 0 :=
  c2_bot_author_yields_no_reply okEnv mFromBot rfl

/-- C8: when the global `vectorstore` is still `None`, the handler emits zero
replies even for a non-empty, non-bot author, and only logs the condition. -/
theorem c8_uninitialized_vectorstore_drops_event (env : Env) (m : InboundMsg)
    (hv : env.vectorstoreReady = false)
    (h1 : m.authorId ≠ "") (h2 : m.authorId ≠ bot_id) :
    replyCount env (EventData.msg m) = 0 ∧
      handleMessage env (EventData.msg m) =
        [Effect.logInfo "Vectorstore not initialized"] := by
  have hr : handleMessage env (EventData.msg m) = rejectLog env m := by
    refine handleMessage_reject env m ?_
    rintro ⟨-, -, h3⟩
    rw [hv] at h3
    exact Bool.false_ne_true h3
  constructor
  · unfold replyCount
    rw [hr, sentEvents_rejectLog]
    rfl
  · rw [hr]
    unfold rejectLog
    rw [if_neg h2, if_neg h1, if_pos hv]

/-- Witness for C8: a valid user message against the uninitialized store. -/
theorem c8_uninitialized_vectorstore_drops_event_witness :
    replyCount noStoreEnv (EventData.msg mHello) = 0 ∧
      handleMessage noStoreEnv (EventData.msg mHello) =
        [Effect.logInfo "Vectorstore not initialized"] :=
  c8_uninitialized_vectorstore_drops_event noStoreEnv mHello rfl
    (by decide) (by decide)

/-- C5: every inbound event yields at most one outbound reply, and every
event rejected by the filtering yields exactly zero. -/
theorem c5_at_most_one_reply_per_event (env : Env) (d : EventData) :
    replyCount env d ≤ 1 ∧ (accepted env d = false → replyCount env d = 0) := by
  cases d with
  | notDict =>
      refine ⟨?_, fun _ => ?_⟩ <;> simp [replyCount, handleMessage, sentEvents]
  | msg m =>
      by_cases hc : m.authorId ≠ "" ∧ m.authorId ≠ bot_id ∧ env.vectorstoreReady = true
      · constructor
        · unfold replyCount
          rw [handleMessage_accept env m hc, sentEvents_acceptedPath]
          cases hr : env.retrieve m.content with
          | error e => simp [hr]
          | ok docs =>
              cases hg : env.generate m.content (formatContext docs) with
              | error e => simp [hr, hg]
              | ok txt => simp [hr, hg]
        · intro hf
          simp [accepted, hc] at hf
      · have h0 : replyCount env (EventData.msg m) = 0 := by
          unfold replyCount
          rw [handleMessage_reject env m hc, sentEvents_rejectLog]
          rfl
        exact ⟨by rw [h0]; exact Nat.zero_le 1, fun _ => h0⟩

/-- Witness for C5: the bot-authored message is rejected and yields zero
replies, within the at-most-one bound. -/
theorem c5_at_most_one_reply_per_event_witness :
    replyCount okEnv (EventData.msg mFromBot) ≤ 1 ∧
      replyCount okEnv (EventData.msg mFromBot) = 0 :=
  ⟨(c5_at_most_one_reply_per_event okEnv (EventData.msg mFromBot)).1,
   (c5_at_most_one_reply_per_event okEnv (EventData.msg mFromBot)).2 (by decide)⟩

/-- C3 fails on the code: the handler never inspects the message text, so a
whitespace-only message from a valid non-bot author is processed and emits
one reply, where the claim requires zero. -/
theorem c3_whitespace_reply_counterexample :
    whitespaceOnly mBlank.content = true ∧
      replyCount okEnv (EventData.msg mBlank) ≠ 0 := by
  constructor
  · decide
  · decide

/-- C3 amended: the handler applies no emptiness filter to the text; an event
whose text trims to empty but has a non-empty non-bot author id, with the
vectorstore initialized, proceeds through retrieval and generation and emits
exactly one reply when both succeed. -/
theorem c3_whitespace_text_not_filtered (env : Env) (m : InboundMsg)
    (docs : List Passage) (txt : String)
    (_hws : whitespaceOnly m.content = true)
    (h1 : m.authorId ≠ "") (h2 : m.authorId ≠ bot_id)
    (h3 : env.vectorstoreReady = true)
    (h4 : env.retrieve m.content = Except.ok docs)
    (h5 : env.generate m.content (formatContext docs) = Except.ok txt) :
    replyCount env (EventData.msg m) = 1 := by
  unfold replyCount
  rw [sentEvents_accept_success env m docs txt h1 h2 h3 h4 h5]
  rfl

/-- Witness for the amended C3 at the concrete whitespace-only message. -/
theorem c3_whitespace_text_not_filtered_witness :
    replyCount okEnv (EventData.msg mBlank) = 1 :=
  c3_whitespace_text_not_filtered okEnv mBlank
    [⟨some "joe66", some "general", "my sink"⟩] "hi there"
    (by decide) (by decide) (by decide) rfl rfl rfl

lemma handleMessage_retrieve_error (env : Env) (m : InboundMsg) (e : String)
    (hc : m.authorId ≠ "" ∧ m.authorId ≠ bot_id ∧ env.vectorstoreReady = true)
    (h4 : env.retrieve m.content = Except.error e) :
    handleMessage env (EventData.msg m) =
      [Effect.retrieveCall m.content,
       Effect.logError ("Error generating/sending response: " ++ e)] := by
  rw [handleMessage_accept env m hc]
  unfold acceptedPath
  simp [h4]

lemma handleMessage_send_error (env : Env) (m : InboundMsg)
    (docs : List Passage) (txt e : String)
    (hc : m.authorId ≠ "" ∧ m.authorId ≠ bot_id ∧ env.vectorstoreReady = true)
    (h4 : env.retrieve m.content = Except.ok docs)
    (h5 : env.generate m.content (formatContext docs) = Except.ok txt)
    (h6 : env.sendResult = Except.error e) :
    handleMessage env (EventData.msg m) =
      [Effect.retrieveCall m.content,
       Effect.generateCall m.content (formatContext docs),
       Effect.sendCall (mkReplyEvent env m txt),
       Effect.logError ("Error generating/sending response: " ++ e)] := by
  rw [handleMessage_accept env m hc]
  unfold acceptedPath
  simp [h4, h5, h6]

lemma create_robot_exists (db : List UserRow) (name : String) (t : Nat)
    (h : db.any (fun r => r.id == botIdOf name) = true) :
    create_robot db name t = db := by
  simp [create_robot, h]

/-- C4: if the retrieval call raises for an event, the handler makes no
generation call and no send for that event, calls retrieval exactly once (no
retry), emits no reply, and the dispatch loop still processes the remaining
events. -/
theorem c4_retrieval_failure_drops_event (env : Env) (m : InboundMsg)
    (e : String) (rest : List (Env × EventData))
    (h1 : m.authorId ≠ "") (h2 : m.authorId ≠ bot_id)
    (h3 : env.vectorstoreReady = true)
    (h4 : env.retrieve m.content = Except.error e) :
    (handleMessage env (EventData.msg m)).countP isGenerateCall = 0 ∧
    (handleMessage env (EventData.msg m)).countP isSendCall = 0 ∧
    (handleMessage env (EventData.msg m)).countP isRetrieveCall = 1 ∧
    replyCount env (EventData.msg m) = 0 ∧
    runWorker ((env, EventData.msg m) :: rest) =
      handleMessage env (EventData.msg m) ++ runWorker rest := by
  have ht := handleMessage_retrieve_error env m e ⟨h1, h2, h3⟩ h4
  refine ⟨?_, ?_, ?_, ?_, rfl⟩
  · rw [ht]; rfl
  · rw [ht]; rfl
  · rw [ht]; rfl
  · unfold replyCount; rw [ht]; rfl

/-- Witness for C4: the concrete failing-retrieval environment. -/
theorem c4_retrieval_failure_drops_event_witness :
    (handleMessage retrieveFailEnv (EventData.msg mHello)).countP isGenerateCall = 0 ∧
    (handleMessage retrieveFailEnv (EventData.msg mHello)).countP isSendCall = 0 ∧
    (handleMessage retrieveFailEnv (EventData.msg mHello)).countP isRetrieveCall = 1 ∧
    replyCount retrieveFailEnv (EventData.msg mHello) = 0 ∧
    runWorker [(retrieveFailEnv, EventData.msg mHello)] =
      handleMessage retrieveFailEnv (EventData.msg mHello) ++ runWorker [] :=
  c4_retrieval_failure_drops_event retrieveFailEnv mHello "pinecone down" []
    (by decide) (by decide) rfl rfl

/-- C6: when the outbound emit raises, the failure is logged, the send was
attempted exactly once (never requeued or retried), and no failure of any
event can terminate the dispatch loop: the loop always handles the head
event to completion and proceeds with the remaining events. -/
theorem c6_send_failure_logged_loop_continues (env : Env) (m : InboundMsg)
    (docs : List Passage) (txt e : String)
    (h1 : m.authorId ≠ "") (h2 : m.authorId ≠ bot_id)
    (h3 : env.vectorstoreReady = true)
    (h4 : env.retrieve m.content = Except.ok docs)
    (h5 : env.generate m.content (formatContext docs) = Except.ok txt)
    (h6 : env.sendResult = Except.error e) :
    (handleMessage env (EventData.msg m)).countP isSendCall = 1 ∧
    Effect.logError ("Error generating/sending response: " ++ e) ∈
      handleMessage env (EventData.msg m) ∧
    ∀ (env2 : Env) (d : EventData) (rest : List (Env × EventData)),
      runWorker ((env2, d) :: rest) = handleMessage env2 d ++ runWorker rest := by
  have ht := handleMessage_send_error env m docs txt e ⟨h1, h2, h3⟩ h4 h5 h6
  refine ⟨by rw [ht]; rfl, by rw [ht]; simp, fun _ _ _ => rfl⟩

/-- Witness for C6: the concrete failing-send environment. -/
theorem c6_send_failure_logged_loop_continues_witness :
    (handleMessage sendFailEnv (EventData.msg mHello)).countP isSendCall = 1 ∧
    Effect.logError ("Error generating/sending response: " ++ "socket closed") ∈
      handleMessage sendFailEnv (EventData.msg mHello) ∧
    runWorker [(sendFailEnv, EventData.msg mHello)] =
      handleMessage sendFailEnv (EventData.msg mHello) ++ runWorker [] := by
  have h := c6_send_failure_logged_loop_continues sendFailEnv mHello
    [⟨some "joe66", some "general", "my sink"⟩] "hi there" "socket closed"
    (by decide) (by decide) rfl rfl rfl rfl
  exact ⟨h.1, h.2.1, h.2.2 sendFailEnv (EventData.msg mHello) []⟩

/-- C7: every reply the handler emits carries the freshly generated
identifier `"msg_" ++ uuid4()`, both as the event `messageId` and as the
inner message id; the inbound message id is never copied, so whenever the
fresh identifier differs from the inbound id the reply id differs from it. -/
theorem c7_reply_id_freshly_generated (env : Env) (m : InboundMsg)
    (ev : MessageEvent)
    (hmem : ev ∈ sentEvents (handleMessage env (EventData.msg m)))
    (hfresh : "msg_" ++ env.freshId ≠ m.id) :
    ev.message.id = "msg_" ++ env.freshId ∧
    ev.messageId = "msg_" ++ env.freshId ∧
    ev.message.id ≠ m.id := by
  by_cases hc : m.authorId ≠ "" ∧ m.authorId ≠ bot_id ∧ env.vectorstoreReady = true
  · rw [handleMessage_accept env m hc, sentEvents_acceptedPath] at hmem
    cases hr : env.retrieve m.content with
    | error e => simp only [hr] at hmem; simp at hmem
    | ok docs =>
        simp only [hr] at hmem
        cases hg : env.generate m.content (formatContext docs) with
        | error e => simp only [hg] at hmem; simp at hmem
        | ok txt =>
            simp only [hg] at hmem
            simp only [List.mem_singleton] at hmem
            subst hmem
            exact ⟨rfl, rfl, hfresh⟩
  · rw [handleMessage_reject env m hc, sentEvents_rejectLog] at hmem
    simp at hmem

/-- Witness for C7: the reply built for the concrete accepted message. -/
theorem c7_reply_id_freshly_generated_witness :
    (mkReplyEvent okEnv mHello "hi there").message.id = "msg_" ++ okEnv.freshId ∧
    (mkReplyEvent okEnv mHello "hi there").messageId = "msg_" ++ okEnv.freshId ∧
    (mkReplyEvent okEnv mHello "hi there").message.id ≠ mHello.id :=
  c7_reply_id_freshly_generated okEnv mHello (mkReplyEvent okEnv mHello "hi there")
    (by decide) (by decide)

/-- C1 fails on the code: two accepted events for conversation `c1` arriving
at the same instant produce two replies also at the same instant; the
separation is 0, below `MIN_INTERVAL`, and no reply is dropped. -/
theorem c1_burst_counterexample :
    emitTimes burstInput "c1" = [0, 0] ∧
    gapsAtLeast MIN_INTERVAL (emitTimes burstInput "c1") = false := by
  exact ⟨by decide, by decide⟩

/-- C1 amended: the handler enforces no per-conversation minimum interval;
each accepted event whose retrieval and generation succeed emits exactly one
reply at that event's own processing time, so when two such events for one
conversation arrive closer than `MIN_INTERVAL` the two replies are emitted
at exactly the event times (no event dropped, no delay inserted) and their
separation is below `MIN_INTERVAL`. -/
theorem c1_no_rate_limiting_between_emits
    (t1 t2 : Nat) (env1 env2 : Env) (m1 m2 : InboundMsg) (c : String)
    (docs1 docs2 : List Passage) (txt1 txt2 : String)
    (_hle : t1 ≤ t2) (hgap : t2 - t1 < MIN_INTERVAL)
    (h11 : m1.authorId ≠ "") (h12 : m1.authorId ≠ bot_id)
    (h13 : env1.vectorstoreReady = true)
    (h14 : env1.retrieve m1.content = Except.ok docs1)
    (h15 : env1.generate m1.content (formatContext docs1) = Except.ok txt1)
    (h21 : m2.authorId ≠ "") (h22 : m2.authorId ≠ bot_id)
    (h23 : env2.vectorstoreReady = true)
    (h24 : env2.retrieve m2.content = Except.ok docs2)
    (h25 : env2.generate m2.content (formatContext docs2) = Except.ok txt2)
    (hc1 : m1.channelId = some c) (hc2 : m2.channelId = some c) :
    emitTimes [⟨t1, env1, EventData.msg m1⟩, ⟨t2, env2, EventData.msg m2⟩] c
      = [t1, t2] ∧
    gapsAtLeast MIN_INTERVAL
      (emitTimes [⟨t1, env1, EventData.msg m1⟩, ⟨t2, env2, EventData.msg m2⟩] c)
      = false := by
  have e1 := sentEvents_accept_success env1 m1 docs1 txt1 h11 h12 h13 h14 h15
  have e2 := sentEvents_accept_success env2 m2 docs2 txt2 h21 h22 h23 h24 h25
  have hts : emitTimes [⟨t1, env1, EventData.msg m1⟩, ⟨t2, env2, EventData.msg m2⟩] c
      = [t1, t2] := by
    unfold emitTimes
    simp only [runTimed, e1, e2]
    simp [mkReplyEvent, hc1, hc2]
  refine ⟨hts, ?_⟩
  rw [hts]
  have hlt : ¬ (t1 + MIN_INTERVAL ≤ t2) := by
    unfold MIN_INTERVAL at hgap ⊢
    omega
  simp [gapsAtLeast, hlt]

/-- Witness for the amended C1: the same-instant burst at time 5. -/
theorem c1_no_rate_limiting_between_emits_witness :
    emitTimes [⟨5, okEnv, EventData.msg mHello⟩, ⟨5, okEnv, EventData.msg mHello2⟩] "c1"
      = [5, 5] ∧
    gapsAtLeast MIN_INTERVAL
      (emitTimes [⟨5, okEnv, EventData.msg mHello⟩, ⟨5, okEnv, EventData.msg mHello2⟩] "c1")
      = false :=
  c1_no_rate_limiting_between_emits 5 5 okEnv okEnv mHello mHello2 "c1"
    [⟨some "joe66", some "general", "my sink"⟩]
    [⟨some "joe66", some "general", "my sink"⟩] "hi there" "hi there"
    (by decide) (by decide)
    (by decide) (by decide) rfl rfl rfl
    (by decide) (by decide) rfl rfl rfl
    rfl rfl

/-- C9: the bot id is derived deterministically from the name (lowercased,
spaces to underscores, prefixed with `bot_`); after one `create_robot` call
the row with that id exists, a second call changes nothing, and a call on a
table already containing the id performs no insert and leaves the table
unchanged. -/
theorem c9_create_robot_idempotent (db : List UserRow) (name : String)
    (t1 t2 : Nat) :
    ((create_robot db name t1).any (fun r => r.id == botIdOf name)) = true ∧
    create_robot (create_robot db name t1) name t2 = create_robot db name t1 ∧
    (db.any (fun r => r.id == botIdOf name) = true → create_robot db name t1 = db) := by
  have hpresent :
      ((create_robot db name t1).any (fun r => r.id == botIdOf name)) = true := by
    by_cases h : db.any (fun r => r.id == botIdOf name) = true
    · simp [create_robot, h]
    · simp [create_robot, h, List.any_append]
  exact ⟨hpresent, create_robot_exists _ name t2 hpresent,
         fun hx => create_robot_exists db name t1 hx⟩

/-- Witness for C9: the table already holding `bot_mr_robot`. -/
theorem c9_create_robot_idempotent_witness :
    ((create_robot db0 "mr robot" 1).any (fun r => r.id == botIdOf "mr robot")) = true ∧
    create_robot (create_robot db0 "mr robot" 1) "mr robot" 2 = create_robot db0 "mr robot" 1 ∧
    create_robot db0 "mr robot" 1 = db0 :=
  ⟨(c9_create_robot_idempotent db0 "mr robot" 1 2).1,
   (c9_create_robot_idempotent db0 "mr robot" 1 2).2.1,
   (c9_create_robot_idempotent db0 "mr robot" 1 2).2.2 (by decide)⟩

/-- C10: the code is wrong at the empty-string input.  For a seed message
with `replyToId` equal to `""`, Python truthiness makes `if reply_to_id:`
false, so the existence check is skipped and the empty string is inserted
verbatim; the resulting table violates reply-link referential integrity,
although the claim (and the comment at `seed_messages.py` line 203) requires
a `replyToId` matching no existing row to be replaced with null. -/
theorem c10_empty_replyToId_bypasses_check :
    insert_message [] mdEmptyReply umap cmap = Except.ok [buggyRow] ∧
    buggyRow.replyToId = some "" ∧
    replyLinksValid [buggyRow] = false := by
  refine ⟨rfl, rfl, ?_⟩
  decide

end RagChat
